import Mathlib

/-!
Verification of the user-management core of the repository
(`src/app.module.ts`, `UsersController`).

The controller itself is in the source tree; the `Result` container, the
roles guard and the `UsersService` implementation are imported by the
controller from modules outside the tree, so those collaborators are
modelled from the specification (each such definition says so in its doc
comment).  Everything else is translated directly from the controller
source.
-/

/-- The two-variant success/failure container used by the service layer.
Modelled from the spec: the `Result` library itself is imported by the
controller and its source is not in the tree; the spec describes it as a
tagged union `Ok(value) / Err(error)`. -/
inductive Result (T E : Type) where
  | Ok : T → Result T E
  | Err : E → Result T E
deriving DecidableEq, Repr

/-- Modelled from the spec: the single extraction primitive
`cata(onErr, onOk)` of the `Result` container — handle the `Err` branch
with the first handler and the `Ok` branch with the second, returning a
unified type. Argument order follows the controller call sites:
`result.cata(error => ..., identity)`. -/
def Result.cata {T E R : Type} (r : Result T E) (onErr : E → R) (onOk : T → R) : R :=
  match r with
  | Result.Err e => onErr e
  | Result.Ok v => onOk v

/-- Branch instrumentation for `cata`: run the fold with handlers that
report `(1, 0)` from the error branch and `(0, 1)` from the success
branch, so the pair counts how many times each branch produced the
result. -/
def cataBranchCounts {T E : Type} (r : Result T E) : Nat × Nat :=
  r.cata (fun _ => (1, 0)) (fun _ => (0, 1))

/-- The domain error values carried in the `Err` branch.  The two named
classes come from the controller source (`UserNotFoundError`,
`UserAlreadyExistsError`, imported from `./errors/errors`); `other`
covers the remaining, unmapped error kinds the spec keeps open
(`kind: enum(NotFound, AlreadyExists, Validation, ...)`). -/
inductive DomainError where
  | userNotFound (message : String)
  | userAlreadyExists (message : String)
  | other (name message : String)
deriving DecidableEq, Repr

/-- The `name` discriminant of an error value, as the controller reads it
(`error.name`). -/
def DomainError.name : DomainError → String
  | DomainError.userNotFound _ => "UserNotFoundError"
  | DomainError.userAlreadyExists _ => "UserAlreadyExistsError"
  | DomainError.other n _ => n

/-- The diagnostic message of an error value (`error.message`). -/
def DomainError.message : DomainError → String
  | DomainError.userNotFound m => m
  | DomainError.userAlreadyExists m => m
  | DomainError.other _ m => m

/-- Body of a transport-level error response, as built by the controller:
`{ status, error: error.name, message: error.message }`. -/
structure ErrorBody where
  status : Nat
  error : String
  message : String
deriving DecidableEq, Repr

/-- The transport exceptions thrown by the controller folds
(`NotFoundException`, `ConflictException` from the framework). -/
inductive HttpException where
  | notFoundException (body : ErrorBody)
  | conflictException (body : ErrorBody)
deriving DecidableEq, Repr

/-- Outcome of a controller handler, with exceptions reified as values:
`success` is the value returned normally (serialized as the response
body), `httpException` is a thrown framework exception, and `rethrown`
is an error instance rethrown unchanged past the fold. -/
inductive HttpResult (T : Type) where
  | success : T → HttpResult T
  | httpException : HttpException → HttpResult T
  | rethrown : DomainError → HttpResult T
deriving DecidableEq, Repr

/-- An entity of the user store.  The spec keeps entities opaque beyond an
identifier and a uniqueness key (username). -/
structure User where
  id : String
  username : String
deriving DecidableEq, Repr

/-- The underlying store of the capability service, a finite sequence of
users. -/
abbrev Store := List User

/-- `HttpStatus.NOT_FOUND` of the framework. -/
def HttpStatus.NOT_FOUND : Nat := 404

/-- `HttpStatus.CONFLICT` of the framework. -/
def HttpStatus.CONFLICT : Nat := 409

/-- `UsersController.findOne` fold (source lines 81–93): on `Err`, a
`UserNotFoundError` instance becomes a thrown `NotFoundException` with
body `{status: 404, error: error.name, message: error.message}`; any
other error instance is rethrown; on `Ok`, the value is returned
(`identity`). -/
def UsersController.findOne {T : Type} (result : Result T DomainError) : HttpResult T :=
  result.cata
    (fun error =>
      match error with
      | DomainError.userNotFound msg =>
          HttpResult.httpException (HttpException.notFoundException
            { status := HttpStatus.NOT_FOUND
              error := (DomainError.userNotFound msg).name
              message := msg })
      | e => HttpResult.rethrown e)
    (fun value => HttpResult.success value)

/-- `UsersController.createUser` fold (source lines 105–120): on `Err`, a
`UserAlreadyExistsError` instance becomes a thrown `ConflictException`
with body `{status: 409, error: error.name, message: error.message}`;
any other error instance is rethrown; on `Ok`, the value is returned. -/
def UsersController.createUser {T : Type} (result : Result T DomainError) : HttpResult T :=
  result.cata
    (fun error =>
      match error with
      | DomainError.userAlreadyExists msg =>
          HttpResult.httpException (HttpException.conflictException
            { status := HttpStatus.CONFLICT
              error := (DomainError.userAlreadyExists msg).name
              message := msg })
      | e => HttpResult.rethrown e)
    (fun value => HttpResult.success value)

/-- `UsersController.updateUser` fold (source lines 136–151): same error
mapping as `findOne` — `UserNotFoundError` becomes a thrown
`NotFoundException`, everything else is rethrown. -/
def UsersController.updateUser {T : Type} (result : Result T DomainError) : HttpResult T :=
  result.cata
    (fun error =>
      match error with
      | DomainError.userNotFound msg =>
          HttpResult.httpException (HttpException.notFoundException
            { status := HttpStatus.NOT_FOUND
              error := (DomainError.userNotFound msg).name
              message := msg })
      | e => HttpResult.rethrown e)
    (fun value => HttpResult.success value)

/-- `UsersController.removeUser` fold (source lines 167–179): same error
mapping as `findOne` — `UserNotFoundError` becomes a thrown
`NotFoundException`, everything else is rethrown. -/
def UsersController.removeUser {T : Type} (result : Result T DomainError) : HttpResult T :=
  result.cata
    (fun error =>
      match error with
      | DomainError.userNotFound msg =>
          HttpResult.httpException (HttpException.notFoundException
            { status := HttpStatus.NOT_FOUND
              error := (DomainError.userNotFound msg).name
              message := msg })
      | e => HttpResult.rethrown e)
    (fun value => HttpResult.success value)

/-- Response statuses declared by the Swagger decorators on
`UsersController.createUser` (source lines 97–100): `@ApiResponse 201`,
`@ApiForbiddenResponse 403`, `@ApiNotFoundResponse 404`,
`@ApiConflictResponse 409`. -/
def createUserDeclaredResponseStatuses : List Nat := [201, 403, 404, 409]

/-- The five exposed operations of the `users` resource, one per
controller handler. -/
inductive Operation where
  | getAllOp
  | findOneOp
  | createOp
  | updateOp
  | removeOp
deriving DecidableEq, Repr

/-- An access rule of the Access Policy: an endpoint together with the
set of roles allowed to call it. -/
structure AccessRule where
  resource : String
  operation : Operation
  allowedRoles : List String
deriving DecidableEq, Repr

/-- The Access Policy of the `users` resource, read off the `@Roles`
decorators of the controller: `@Roles(['admin', 'guest'])` on `getAll`
(line 55) and `findOne` (line 68), `@Roles(['admin'])` on `createUser`
(line 96), `updateUser` (line 123) and `removeUser` (line 154). -/
def usersRule : Operation → AccessRule
  | Operation.getAllOp => { resource := "users", operation := Operation.getAllOp, allowedRoles := ["admin", "guest"] }
  | Operation.findOneOp => { resource := "users", operation := Operation.findOneOp, allowedRoles := ["admin", "guest"] }
  | Operation.createOp => { resource := "users", operation := Operation.createOp, allowedRoles := ["admin"] }
  | Operation.updateOp => { resource := "users", operation := Operation.updateOp, allowedRoles := ["admin"] }
  | Operation.removeOp => { resource := "users", operation := Operation.removeOp, allowedRoles := ["admin"] }

/-- Terminal decisions of the Authorization Gate. -/
inductive Decision where
  | Authorized
  | Denied
deriving DecidableEq, Repr

/-- Modelled from the spec: the Authorization Gate (the roles guard is
imported from `../auth` and its source is not in the tree).  Authorized
iff the intersection of the caller's role set and the matching
AccessRule's `allowedRoles` is non-empty; no rule for the requested
(resource, operation) pair means Denied (fail-closed default). -/
def gateDecision (callerRoles : List String) (rule : Option AccessRule) : Decision :=
  match rule with
  | none => Decision.Denied
  | some a =>
      if callerRoles.any (fun r => a.allowedRoles.contains r) then Decision.Authorized
      else Decision.Denied

/-- Outcome of a whole request flow: either the Gate denied it
(forbidden, no handler ran), or the handler's outcome. -/
inductive RequestOutcome (T : Type) where
  | forbidden : RequestOutcome T
  | handled : HttpResult T → RequestOutcome T
deriving DecidableEq, Repr

/-- Modelled from the spec: the per-request data flow — incoming request
→ Authorization Gate → on success, Capability Service call and boundary
fold → response.  The service-and-fold step is a state transformer on
the store so that side effects are visible; on Denied it is not run and
the store is returned unchanged. -/
def processRequest {T σ : Type} (callerRoles : List String) (rule : Option AccessRule)
    (handler : σ → HttpResult T × σ) (s : σ) : RequestOutcome T × σ :=
  match gateDecision callerRoles rule with
  | Decision.Denied => (RequestOutcome.forbidden, s)
  | Decision.Authorized =>
      let out := handler s
      (RequestOutcome.handled out.1, out.2)

/-- Modelled from the spec: `UsersService.getAll(filter?)` — never fails
with a DomainError; an empty filter returns all entities; a username
filter keeps the matching entities. -/
def UsersService.getAll (store : Store) (query : Option String) : List User :=
  match query with
  | none => store
  | some q => store.filter (fun u => u.username == q)

/-- Modelled from the spec: `UsersService.addUser` — `AlreadyExists` iff
an entity with the same uniqueness key (username) already exists; on
success the returned entity carries the newly assigned identifier
`newId` and is appended to the store. -/
def UsersService.addUser (store : Store) (username : String) (newId : String) :
    Result User DomainError × Store :=
  if store.any (fun u => u.username == username) then
    (Result.Err (DomainError.userAlreadyExists ("user " ++ username ++ " already exists")), store)
  else
    (Result.Ok { id := newId, username := username },
      store ++ [{ id := newId, username := username }])

/-- Modelled from the spec: `UsersService.removeUser(id)` — returns the
removed entity snapshot and deletes it from the store; `NotFound` iff
`id` is absent, leaving the store unchanged. -/
def UsersService.removeUser (store : Store) (id : String) :
    Result User DomainError × Store :=
  match store.find? (fun u => u.id == id) with
  | some u => (Result.Ok u, store.filter (fun v => v.id != id))
  | none => (Result.Err (DomainError.userNotFound ("user " ++ id ++ " not found")), store)

/-- `UsersController.getAll` (source lines 63–65): the service result is
returned directly, with no fold and no error branch. -/
def UsersController.getAll (store : Store) (query : Option String) : HttpResult (List User) :=
  HttpResult.success (UsersService.getAll store query)

/-- The remove-user request step as a state transformer on the store:
call the service, then fold the result at the boundary.  This is what
runs after the Gate for a `DELETE users/:id` request. -/
def removeUserHandler (id : String) (s : Store) : HttpResult User × Store :=
  (UsersController.removeUser (UsersService.removeUser s id).1,
    (UsersService.removeUser s id).2)

/-- The Gate authorizes a ruled request exactly when the caller role set
meets the rule's allowed-role set. -/
theorem gate_authorized_iff (R : List String) (A : AccessRule) :
    gateDecision R (some A) = Decision.Authorized ↔ ∃ r, r ∈ R ∧ r ∈ A.allowedRoles := by
  unfold gateDecision
  by_cases h : R.any (fun r => A.allowedRoles.contains r) = true
  · simp only [h, if_true, true_iff]
    simp only [List.any_eq_true, List.elem_iff] at h
    exact h
  · simp only [Bool.not_eq_true] at h
    simp only [h, Bool.false_eq_true, if_false]
    constructor
    · intro hc; cases hc
    · intro hc
      rw [Bool.eq_false_iff] at h
      exact absurd (List.any_eq_true.mpr (by simpa [List.elem_iff] using hc)) h

/-- The Gate denies a ruled request exactly when the caller role set
misses the rule's allowed-role set. -/
theorem gate_denied_iff (R : List String) (A : AccessRule) :
    gateDecision R (some A) = Decision.Denied ↔ ¬ ∃ r, r ∈ R ∧ r ∈ A.allowedRoles := by
  constructor
  · intro h ha
    have h2 := (gate_authorized_iff R A).mpr ha
    rw [h] at h2
    cases h2
  · intro h
    cases hg : gateDecision R (some A) with
    | Authorized => exact absurd ((gate_authorized_iff R A).mp hg) h
    | Denied => rfl

/-- Claim C1: for every caller role set R and every endpoint with an
AccessRule whose allowed-role set is A, the Authorization Gate reaches
Authorized iff R meets A, and Denied otherwise; the controller policy
allows roles admin and guest for GET on the collection and only admin
for POST, PATCH and DELETE. -/
theorem c1_gate_authorized_iff_roles_intersect :
    (∀ (R : List String) (A : AccessRule),
        (gateDecision R (some A) = Decision.Authorized ↔ ∃ r, r ∈ R ∧ r ∈ A.allowedRoles)
      ∧ (gateDecision R (some A) = Decision.Denied ↔ ¬ ∃ r, r ∈ R ∧ r ∈ A.allowedRoles))
    ∧ (usersRule Operation.getAllOp).allowedRoles = ["admin", "guest"]
    ∧ (usersRule Operation.createOp).allowedRoles = ["admin"]
    ∧ (usersRule Operation.updateOp).allowedRoles = ["admin"]
    ∧ (usersRule Operation.removeOp).allowedRoles = ["admin"] := by
  refine ⟨?_, rfl, rfl, rfl, rfl⟩
  intro R A
  exact ⟨gate_authorized_iff R A, gate_denied_iff R A⟩

/-- Claim C2: with no AccessRule for the requested (resource, operation)
pair, the Gate decision is Denied (fail-closed) and never Authorized. -/
theorem c2_no_rule_fail_closed :
    ∀ R : List String,
      gateDecision R none = Decision.Denied ∧ gateDecision R none ≠ Decision.Authorized := by
  intro R
  exact ⟨rfl, fun h => Decision.noConfusion h⟩

/-- Claim C3: for every Result instance, the fold cata(onErr, onOk)
evaluates exactly one of its two handlers, exactly once (onErr on Err,
onOk on Ok), and returns that handler's value at the unified type. -/
theorem c3_cata_exactly_one_branch :
    ∀ (T E R : Type) (r : Result T E) (onErr : E → R) (onOk : T → R),
      (cataBranchCounts r).1 + (cataBranchCounts r).2 = 1
      ∧ ((∃ e, r = Result.Err e ∧ r.cata onErr onOk = onErr e ∧ cataBranchCounts r = (1, 0))
        ∨ (∃ v, r = Result.Ok v ∧ r.cata onErr onOk = onOk v ∧ cataBranchCounts r = (0, 1))) := by
  intro T E R r onErr onOk
  cases r with
  | Ok v => exact ⟨rfl, Or.inr ⟨v, rfl, rfl, rfl⟩⟩
  | Err e => exact ⟨rfl, Or.inl ⟨e, rfl, rfl, rfl⟩⟩

/-- Claim C4: when the Gate denies a request, the service-and-fold step
is never invoked: the outcome is forbidden, the store is unchanged, and
the outcome does not depend on the handler at all. -/
theorem c4_denied_never_invokes_service :
    ∀ (T σ : Type) (callerRoles : List String) (rule : Option AccessRule)
      (f g : σ → HttpResult T × σ) (s : σ),
      gateDecision callerRoles rule = Decision.Denied →
        processRequest callerRoles rule f s = (RequestOutcome.forbidden, s)
        ∧ processRequest callerRoles rule f s = processRequest callerRoles rule g s := by
  intro T σ callerRoles rule f g s h
  unfold processRequest
  rw [h]
  exact ⟨rfl, rfl⟩

/-- Witness for C4: a caller with roles guest issuing DELETE users/123
against the policy allowing only admin is denied and the store keeps the
user untouched. -/
theorem c4_denied_never_invokes_service_witness :
    processRequest ["guest"] (some (usersRule Operation.removeOp)) (removeUserHandler "123")
        [{ id := "123", username := "alice" }]
      = (RequestOutcome.forbidden, [{ id := "123", username := "alice" }]) :=
  (c4_denied_never_invokes_service User Store ["guest"] (some (usersRule Operation.removeOp))
    (removeUserHandler "123") (removeUserHandler "123")
    [{ id := "123", username := "alice" }] (by decide)).1

/-- Claim C5: on Err(UserNotFoundError), the findOne, updateUser and
removeUser folds each throw a NotFoundException whose body carries
status 404, the error kind name and the message, and none of them
returns a success value. -/
theorem c5_notfound_mapped_to_404 :
    ∀ (T : Type) (msg : String) (v : T),
      @UsersController.findOne T (Result.Err (DomainError.userNotFound msg))
          = HttpResult.httpException (HttpException.notFoundException
              { status := 404, error := "UserNotFoundError", message := msg })
      ∧ @UsersController.updateUser T (Result.Err (DomainError.userNotFound msg))
          = HttpResult.httpException (HttpException.notFoundException
              { status := 404, error := "UserNotFoundError", message := msg })
      ∧ @UsersController.removeUser T (Result.Err (DomainError.userNotFound msg))
          = HttpResult.httpException (HttpException.notFoundException
              { status := 404, error := "UserNotFoundError", message := msg })
      ∧ @UsersController.findOne T (Result.Err (DomainError.userNotFound msg))
          ≠ HttpResult.success v
      ∧ @UsersController.updateUser T (Result.Err (DomainError.userNotFound msg))
          ≠ HttpResult.success v
      ∧ @UsersController.removeUser T (Result.Err (DomainError.userNotFound msg))
          ≠ HttpResult.success v := by
  intro T msg v
  refine ⟨rfl, rfl, rfl, ?_, ?_, ?_⟩ <;> intro h <;> cases h

/-- Claim C6: on Err(UserAlreadyExistsError), the createUser fold throws
a ConflictException whose body carries status 409, the error kind name
and the message; and the service reports AlreadyExists exactly when an
entity with the same username is already in the store. -/
theorem c6_alreadyexists_mapped_to_conflict :
    (∀ (T : Type) (msg : String),
        @UsersController.createUser T (Result.Err (DomainError.userAlreadyExists msg))
          = HttpResult.httpException (HttpException.conflictException
              { status := 409, error := "UserAlreadyExistsError", message := msg }))
    ∧ (∀ (store : Store) (username newId : String),
        (∃ msg, (UsersService.addUser store username newId).1
            = Result.Err (DomainError.userAlreadyExists msg))
          ↔ ∃ u, u ∈ store ∧ u.username = username) := by
  constructor
  · intro T msg
    rfl
  · intro store username newId
    unfold UsersService.addUser
    by_cases h : store.any (fun u => u.username == username) = true
    · simp only [h, if_true]
      constructor
      · intro _
        simpa [List.any_eq_true] using h
      · intro _
        exact ⟨_, rfl⟩
    · simp only [Bool.not_eq_true] at h
      simp only [h, Bool.false_eq_true, if_false]
      constructor
      · rintro ⟨msg, hmsg⟩
        cases hmsg
      · rintro ⟨u, hu, huname⟩
        rw [Bool.eq_false_iff] at h
        exact absurd (List.any_eq_true.mpr ⟨u, hu, by simpa using huname⟩) h

/-- Claim C7: any error value whose kind is not the one explicitly mapped
by a fold is rethrown unchanged, never coerced into a domain-level or
generic transport response. -/
theorem c7_unmapped_errors_rethrown :
    ∀ (T : Type) (n msg : String),
      @UsersController.findOne T (Result.Err (DomainError.userAlreadyExists msg))
          = HttpResult.rethrown (DomainError.userAlreadyExists msg)
      ∧ @UsersController.findOne T (Result.Err (DomainError.other n msg))
          = HttpResult.rethrown (DomainError.other n msg)
      ∧ @UsersController.createUser T (Result.Err (DomainError.userNotFound msg))
          = HttpResult.rethrown (DomainError.userNotFound msg)
      ∧ @UsersController.createUser T (Result.Err (DomainError.other n msg))
          = HttpResult.rethrown (DomainError.other n msg)
      ∧ @UsersController.updateUser T (Result.Err (DomainError.userAlreadyExists msg))
          = HttpResult.rethrown (DomainError.userAlreadyExists msg)
      ∧ @UsersController.updateUser T (Result.Err (DomainError.other n msg))
          = HttpResult.rethrown (DomainError.other n msg)
      ∧ @UsersController.removeUser T (Result.Err (DomainError.userAlreadyExists msg))
          = HttpResult.rethrown (DomainError.userAlreadyExists msg)
      ∧ @UsersController.removeUser T (Result.Err (DomainError.other n msg))
          = HttpResult.rethrown (DomainError.other n msg) := by
  intro T n msg
  exact ⟨rfl, rfl, rfl, rfl, rfl, rfl, rfl, rfl⟩

/-- Claim C8: when removeUser(id) succeeds, a second removeUser(id) on
the resulting store yields Err(UserNotFoundError), never a cached
success; and on any store, removeUser reports NotFound exactly when no
entity carries the id. -/
theorem c8_remove_twice_ok_then_notfound (store : Store) (id : String) (u : User)
    (h : (UsersService.removeUser store id).1 = Result.Ok u) :
    (∃ msg, (UsersService.removeUser (UsersService.removeUser store id).2 id).1
        = Result.Err (DomainError.userNotFound msg))
    ∧ ∀ s : Store,
        (∃ msg, (UsersService.removeUser s id).1 = Result.Err (DomainError.userNotFound msg))
          ↔ ∀ v ∈ s, v.id ≠ id := by
  constructor
  · have hfind : ∃ w, store.find? (fun v => v.id == id) = some w := by
      cases hf : store.find? (fun v => v.id == id) with
      | some w => exact ⟨w, rfl⟩
      | none =>
        unfold UsersService.removeUser at h
        rw [hf] at h
        cases h
    obtain ⟨w, hw⟩ := hfind
    have h2 : (UsersService.removeUser store id).2 = store.filter (fun v => v.id != id) := by
      unfold UsersService.removeUser
      rw [hw]
    rw [h2]
    unfold UsersService.removeUser
    have hnone : (store.filter (fun v => v.id != id)).find? (fun v => v.id == id) = none := by
      rw [List.find?_eq_none]
      intro x hx
      have hne := (List.mem_filter.mp hx).2
      simp only [bne_iff_ne, ne_eq] at hne
      simp [hne]
    rw [hnone]
    exact ⟨_, rfl⟩
  · intro s
    constructor
    · rintro ⟨msg, hmsg⟩ v hv hvid
      unfold UsersService.removeUser at hmsg
      cases hf : s.find? (fun x => x.id == id) with
      | some w =>
        rw [hf] at hmsg
        cases hmsg
      | none =>
        have hcontra := List.find?_eq_none.mp hf v hv
        simp [hvid] at hcontra
    · intro habs
      unfold UsersService.removeUser
      have hnone : s.find? (fun x => x.id == id) = none := by
        rw [List.find?_eq_none]
        intro x hx
        simp [habs x hx]
      rw [hnone]
      exact ⟨_, rfl⟩

/-- Witness for C8: removing user 123 from a one-user store succeeds, and
removing it again reports NotFound. -/
theorem c8_remove_twice_ok_then_notfound_witness :
    ∃ msg,
      (UsersService.removeUser
          (UsersService.removeUser [{ id := "123", username := "alice" }] "123").2 "123").1
        = Result.Err (DomainError.userNotFound msg) :=
  (c8_remove_twice_ok_then_notfound [{ id := "123", username := "alice" }] "123"
    { id := "123", username := "alice" } (by decide)).1

/-- Claim C9: an authorized getAll never produces an error outcome: the
controller returns the service sequence directly as a success, and with
an empty filter the sequence is the whole store. -/
theorem c9_getall_never_fails :
    ∀ (store : Store) (query : Option String),
      UsersController.getAll store query = HttpResult.success (UsersService.getAll store query)
      ∧ UsersController.getAll store none = HttpResult.success store
      ∧ (∀ e, UsersController.getAll store query ≠ HttpResult.rethrown e)
      ∧ (∀ ex, UsersController.getAll store query ≠ HttpResult.httpException ex) := by
  intro store query
  refine ⟨rfl, rfl, ?_, ?_⟩ <;> intro x h <;> cases h

/-- Claim C10: createUser declares a 404 response in its API metadata,
yet its fold maps only UserAlreadyExistsError; an Err(UserNotFoundError)
from addUser is rethrown as an unhandled failure and never becomes a
NotFoundException. -/
theorem c10_createuser_notfound_rethrown_despite_metadata :
    404 ∈ createUserDeclaredResponseStatuses
    ∧ (∀ (T : Type) (msg : String) (body : ErrorBody),
        @UsersController.createUser T (Result.Err (DomainError.userNotFound msg))
            = HttpResult.rethrown (DomainError.userNotFound msg)
        ∧ @UsersController.createUser T (Result.Err (DomainError.userNotFound msg))
            ≠ HttpResult.httpException (HttpException.notFoundException body)) := by
  refine ⟨by decide, ?_⟩
  intro T msg body
  refine ⟨rfl, ?_⟩
  intro h
  cases h
